import Mathlib

/-
Verification development for the bibxml-service core:
a shallow embedding of the Crossref mapper (doi/crossref.py) and of the
query utilities (main/query_utils.py), together with theorems settling
the frozen claims about them.

Python dynamics that matter to the claims are made explicit:
fallible operations run in an Except monad over a PyErr type, dicts are
insertion-ordered association lists whose keys must be hashable, and the
binding state of Python locals (which may be read while still unassigned)
is carried as Option values.
-/

namespace BibXml

/-- Python-level runtime error raised while the mapper runs. -/
inductive PyErr where
  | keyError : String → PyErr
  | typeError : String → PyErr
  | attributeError : String → PyErr
  | unboundLocal : String → PyErr
  | valueError : String → PyErr
  | refNotFound : PyErr
  | validationError : String → PyErr
deriving DecidableEq

/-- Dynamic string-or-list-of-strings value: Crossref may supply either a
plain string or a list of strings for fields such as container-title. -/
inductive CT where
  | str : String → CT
  | list : List String → CT
deriving DecidableEq

/-- Python truthiness of an optional string field, as tested by
resp.get(key, False): absent or empty means falsy. -/
def sTruthy : Option String → Bool
  | none => false
  | some s => s != ""

/-- Python truthiness for an optional string-or-list value. -/
def ctTruthy : Option CT → Bool
  | none => false
  | some (CT.str s) => s != ""
  | some (CT.list l) => !l.isEmpty

/-- Mirrors common.util.as_list: wraps a plain value into a singleton list
and keeps a list as is. -/
def ctAsList : CT → List String
  | CT.str s => [s]
  | CT.list l => l

/-- Relaton document identifier.  The fields are optional because records
built through construct() can bypass validation, so downstream code
(get_primary_docid) defensively checks each field against None. -/
structure DocID where
  id : Option String
  type : Option String
  scope : Option String := none
  primary : Option Bool := none
deriving DecidableEq

/-- Wrapped string content (relaton GenericStringValue). -/
structure GenericStringValue where
  content : String
deriving DecidableEq

/-- Relaton person name: surname, completename, and a forename list. -/
structure PersonName where
  surname : Option GenericStringValue := none
  completename : Option GenericStringValue := none
  forename : List GenericStringValue := []
deriving DecidableEq

/-- Relaton organization.  The name slot receives a list of strings in
to_contributor and a plain string in the publisher branch, hence CT. -/
structure Organization where
  name : CT
  contact : List String := []
  url : Option String := none
  abbreviation : Option String := none
deriving DecidableEq

/-- Relaton person affiliation: one organization. -/
structure PersonAffiliation where
  organization : Organization
deriving DecidableEq

/-- Relaton person: affiliations plus a name. -/
structure Person where
  affiliation : List PersonAffiliation
  name : PersonName
deriving DecidableEq

/-- Relaton contributor: roles plus a person or an organization. -/
structure Contributor where
  role : List String
  person : Option Person := none
  organization : Option Organization := none
deriving DecidableEq

/-- Relaton title: content plus an optional type tag (none for primary). -/
structure Title where
  content : String
  type : Option String
deriving DecidableEq

/-- Relaton link: URL content. -/
structure Link where
  content : String
deriving DecidableEq

/-- Abstract entry: content only, as assembled at lines 206-208. -/
structure Abstract where
  content : String
deriving DecidableEq

/-- Fixed metadata describing the external source (main.types). -/
structure ExternalSourceMeta where
  id : String
  home_url : String
deriving DecidableEq

/-- Affiliation object inside a Crossref author entry; the source reads
aff[\x27name\x27] unconditionally, matching the Crossref shape. -/
structure Affil where
  name : String
deriving DecidableEq

/-- Author-like object from a Crossref response.  Each optional field is
none when the corresponding key is absent from the JSON object. -/
structure RespAuthor where
  family : Option String := none
  given : Option String := none
  name : Option String := none
  affiliation : Option (List Affil) := none
deriving DecidableEq

/-- Nested journal-issue object; presence of the object itself models a
non-empty journal-issue dict in the response. -/
structure JournalIssue where
  issue : Option String := none
deriving DecidableEq

/-- Raw Crossref response record.  Optional fields are none when the key
is absent; list fields default to the empty list exactly where the source
uses resp.get(key, []). -/
structure Resp where
  doi : Option String := none
  issn : List String := []
  isbn : List String := []
  author : List RespAuthor := []
  editor : List RespAuthor := []
  translator : List RespAuthor := []
  chair : List RespAuthor := []
  title : Option (List String) := none
  subtitle : Option (List String) := none
  originalTitle : Option (List String) := none
  shortTitle : Option (List String) := none
  shortContainerTitle : Option (List String) := none
  groupTitle : Option (List String) := none
  containerTitle : Option CT := none
  volume : Option String := none
  page : Option String := none
  journalIssue : Option JournalIssue := none
  publisher : Option String := none
  type : Option String := none
  language : Option String := none
  url : Option String := none
  abstract : Option String := none
deriving DecidableEq

/-- ISBN_TMPL applied to the characters of an ISBN string: the template
places characters 0-2, 3, 4-7, 8-11 and 12 into dash-separated groups.
The call site filters for strings of exactly 13 characters, so the
catch-all branch is never reached there (Python would raise IndexError
on a shorter string). -/
def isbnTmplFormat (s : String) : String :=
  match s.data with
  | c0 :: c1 :: c2 :: c3 :: c4 :: c5 :: c6 :: c7 :: c8 :: c9 :: c10 :: c11 :: c12 :: _ =>
    String.mk [c0, c1, c2, '-', c3, '-', c4, c5, c6, c7, '-', c8, c9, c10, c11, '-', c12]
  | _ => ""

/-- Lines 238-271: builds a contributor from a Crossref author object.
The affiliation key is read with a bare subscript, so its absence raises
KeyError, while family, name and given are each guarded by an in-check. -/
def to_contributor (role : String) (a : RespAuthor) : Except PyErr Contributor :=
  match a.affiliation with
  | none => Except.error (PyErr.keyError "affiliation")
  | some affs =>
    Except.ok
      { role := [role],
        person := some
          { affiliation := affs.map (fun aff =>
              { organization :=
                  { name := CT.list [aff.name], contact := [], url := none,
                    abbreviation := none } }),
            name :=
              { surname := a.family.map (fun f => { content := f }),
                completename := a.name.map (fun n => { content := n }),
                forename :=
                  match a.given with
                  | some g => [{ content := g }]
                  | none => [] } },
        organization := none }

/-- Lines 64-73: the identifier list.  The DOI key is a bare subscript;
ISSN entries are copied verbatim; ISBN entries are kept only when exactly
13 characters long and are reformatted through ISBN_TMPL. -/
def mkDocids (resp : Resp) : Except PyErr (List DocID) :=
  match resp.doi with
  | none => Except.error (PyErr.keyError "DOI")
  | some doi =>
    Except.ok
      ([{ id := some doi, type := some "DOI" }]
        ++ resp.issn.map (fun i => { id := some i, type := some "ISSN" })
        ++ (resp.isbn.filter (fun s => s.length == 13)).map
            (fun s => { id := some (isbnTmplFormat s), type := some "ISBN" }))

/-- Lines 75-84: contributors from the four role lists, in source order. -/
def mkContributors (resp : Resp) : Except PyErr (List Contributor) := do
  let authors ← resp.author.mapM (to_contributor "author")
  let editors ← resp.editor.mapM (to_contributor "editor")
  let translators ← resp.translator.mapM (to_contributor "translator")
  let chairs ← resp.chair.mapM (to_contributor "chair")
  Except.ok (authors ++ editors ++ translators ++ chairs)

/-- Python dict assignment d[k] = v on a dict represented as an
insertion-ordered association list: an existing key keeps its position
and receives the new value, a new key is appended at the end. -/
def dictInsert {κ α : Type} [DecidableEq κ] (d : List (κ × α)) (k : κ) (v : α) :
    List (κ × α) :=
  if k ∈ d.map Prod.fst then
    d.map (fun p => if p.1 = k then (k, v) else p)
  else d ++ [(k, v)]

/-- Assignment into the seriesinfo dict.  A list value used as the key is
unhashable, so Python raises TypeError (line 103 with a list-valued
container-title). -/
def siSet (d : List (CT × String)) (k : CT) (v : String) :
    Except PyErr (List (CT × String)) :=
  match k with
  | CT.list _ => Except.error (PyErr.typeError "unhashable type: list")
  | CT.str s => Except.ok (dictInsert d (CT.str s) v)

/-- Result of the series-info block, lines 86-130: the seriesinfo dict,
the binding state of the Python locals vi and info (none means the local
was never assigned, which matters when lines 211-212 read them), and the
extra publisher contributor appended at line 125 if any. -/
structure SeriesOut where
  seriesinfo : List (CT × String)
  vi : Option String
  info : Option (List String)
  pubContrib : Option Contributor
deriving DecidableEq

/-- Lines 86-130: series info with the container-title / publisher
precedence and the whitespace-split fallbacks. -/
def mkSeriesInfo (resp : Resp) : Except PyErr SeriesOut :=
  if ctTruthy resp.containerTitle then
    let ct := resp.containerTitle.getD (CT.str "")
    let vi? : Option String :=
      if sTruthy resp.volume then
        let v0 := "vol. " ++ resp.volume.getD ""
        some (match resp.journalIssue with
              | some ji => if sTruthy ji.issue then v0 ++ ", no. " ++ ji.issue.getD "" else v0
              | none => v0)
      else none
    let info0 : List String :=
      match vi? with
      | some v => [v]
      | none => []
    let info1 : List String :=
      if sTruthy resp.page then info0 ++ ["pp. " ++ resp.page.getD ""] else info0
    if !info1.isEmpty then
      match siSet [] ct (", ".intercalate info1) with
      | Except.error e => Except.error e
      | Except.ok si =>
        Except.ok { seriesinfo := si, vi := vi?, info := some info1, pubContrib := none }
    else
      match ct with
      | CT.list _ => Except.error (PyErr.attributeError "split")
      | CT.str s =>
        let spl := s.splitOn " "
        Except.ok
          { seriesinfo := dictInsert [] (CT.str (" ".intercalate spl.dropLast)) (spl.getLastD ""),
            vi := vi?, info := some info1, pubContrib := none }
  else if sTruthy resp.publisher then
    let p := resp.publisher.getD ""
    let info0 : List String := if sTruthy resp.type then [resp.type.getD ""] else []
    let pubC : Contributor :=
      { role := ["publisher"], person := none,
        organization := some { name := CT.str p } }
    if !info0.isEmpty then
      Except.ok
        { seriesinfo := dictInsert [] (CT.str p) (", ".intercalate info0),
          vi := none, info := some info0, pubContrib := some pubC }
    else
      let spl := p.splitOn " "
      Except.ok
        { seriesinfo := dictInsert [] (CT.str (" ".intercalate spl.dropLast)) (spl.getLastD ""),
          vi := none, info := some info0, pubContrib := some pubC }
  else
    Except.ok { seriesinfo := [], vi := none, info := none, pubContrib := none }

/-- Lines 278-285: the alternate title field names, in source order. -/
def ALT_TITLES : List String :=
  ["subtitle", "original-title", "short-title", "container-title",
   "short-container-title", "group-title"]

/-- Value of an alternate-title field of the response, already passed
through as_list. -/
def altTitleVals (resp : Resp) (tid : String) : Option (List String) :=
  if tid == "subtitle" then resp.subtitle
  else if tid == "original-title" then resp.originalTitle
  else if tid == "short-title" then resp.shortTitle
  else if tid == "container-title" then resp.containerTitle.map ctAsList
  else if tid == "short-container-title" then resp.shortContainerTitle
  else if tid == "group-title" then resp.groupTitle
  else none

/-- Lines 176-184: the primary titles (bare subscript on the title key,
untyped) followed by one typed title per alternate-title value present. -/
def mkTitles (resp : Resp) : Except PyErr (List Title) :=
  match resp.title with
  | none => Except.error (PyErr.keyError "title")
  | some ts =>
    Except.ok
      (ts.map (fun t => { content := t, type := none })
        ++ ALT_TITLES.flatMap (fun tid =>
            match altTitleVals resp tid with
            | some vs => vs.map (fun t => { content := t, type := some tid })
            | none => []))

/-- The candidate data dict assembled at lines 186-213.  series_info
holds the inner seriesinfo mapping (the source wraps it in a one-key
outer dict). -/
structure AssembledData where
  docid : List DocID
  language : Option String
  title : List Title
  link : List Link
  abstract : List Abstract
  contributor : List Contributor
  series_info : List (CT × String)
  volume : String
  page : Option String
deriving DecidableEq

/-- Lines 58-213 of get_bibitem: everything between the provider response
and the breakpoint, in source evaluation order.  The reads of vi and info
at lines 211-212 raise UnboundLocalError when the series-info block never
assigned those locals. -/
def assembleData (resp : Resp) : Except PyErr AssembledData := do
  let _volume : String :=
    "vol. " ++ (match resp.volume with | some v => v | none => "None")
  let _page : Option String := resp.page
  let docids ← mkDocids resp
  let contribs0 ← mkContributors resp
  let so ← mkSeriesInfo resp
  let contribs := contribs0 ++ (match so.pubContrib with | some c => [c] | none => [])
  let titles ← mkTitles resp
  let url ← match resp.url with
    | some u => Except.ok u
    | none => Except.error (PyErr.keyError "URL")
  let vi ← match so.vi with
    | some v => Except.ok v
    | none => Except.error (PyErr.unboundLocal "vi")
  let info ← match so.info with
    | some i => Except.ok i
    | none => Except.error (PyErr.unboundLocal "info")
  Except.ok
    { docid := docids,
      language := resp.language,
      title := titles,
      link := [{ content := url }],
      abstract := match resp.abstract with | some a => [{ content := a }] | none => [],
      contributor := contribs,
      series_info := so.seriesinfo,
      volume := vi,
      page := info.head? }

/-- A bibliographic record: either fully validated (a normal constructor
call succeeded) or built through construct() bypassing validation. -/
structure BibRecord (α : Type) where
  data : α
  validated : Bool
deriving DecidableEq

/-- Lines 217-225: the construction step of get_bibitem, parametric over
the schema validator (pydantic is external to this code).  Under strict,
a validation failure propagates; otherwise the message is captured and a
record is built through construct(). -/
def constructStep {α : Type} (validate : α → Option String) (strict : Bool) (d : α) :
    Except String (BibRecord α × List String) :=
  if strict then
    match validate d with
    | some msg => Except.error msg
    | none => Except.ok ({ data := d, validated := true }, [])
  else
    match validate d with
    | some msg => Except.ok ({ data := d, validated := false }, [msg])
    | none => Except.ok ({ data := d, validated := true }, [])

/-- Return value of get_bibitem (main.types.ExternalBibliographicItem). -/
structure ExternalBibliographicItem where
  source : ExternalSourceMeta
  bibitem : BibRecord AssembledData
  validation_errors : List String
  requests : List String
deriving DecidableEq

/-- Observable control-flow events of get_bibitem after data assembly:
the interactive breakpoint at line 214, the validation step at lines
217-225, and the normal return at line 227. -/
inductive Ev where
  | breakpoint
  | validateEv
  | returnEv
deriving DecidableEq

/-- Lines 33-235 of get_bibitem: type check on the docid, provider
response check, data assembly, the line-214 breakpoint, validation, and
the wrapped return value.  The first component records which of the three
post-assembly control-flow events were reached, in order. -/
def get_bibitem (validate : AssembledData → Option String) (docid : DocID)
    (respOpt : Option Resp) (strict : Bool) :
    List Ev × Except PyErr ExternalBibliographicItem :=
  if docid.type != some "DOI" then
    ([], Except.error (PyErr.valueError "DOI source requires DOI docid.type"))
  else
    match respOpt with
    | none => ([], Except.error PyErr.refNotFound)
    | some resp =>
      match assembleData resp with
      | Except.error e => ([], Except.error e)
      | Except.ok d =>
        match constructStep validate strict d with
        | Except.error m => ([Ev.breakpoint, Ev.validateEv], Except.error (PyErr.validationError m))
        | Except.ok (bib, errs) =>
          ([Ev.breakpoint, Ev.validateEv, Ev.returnEv],
           Except.ok
             { source := { id := "crossref-api", home_url := "http://api.crossref.org" },
               bibitem := bib,
               validation_errors := errs,
               requests := [] })

/-- Boolean success test for an Except value. -/
def exceptIsOk {ε α : Type} : Except ε α → Bool
  | Except.ok _ => true
  | Except.error _ => false

/-- Lines 134-143 of query_utils: the eligibility filter used by
get_primary_docid (primary is True, id and type set, scope unset). -/
def eligible (d : DocID) : Bool :=
  d.primary == some true && d.id.isSome && d.type.isSome && d.scope == none

/-- Lexicographic strict order on character lists, used only to pick a
canonical representative for a two-element frozenset. -/
def charListLt : List Char → List Char → Bool
  | [], [] => false
  | [], _ :: _ => true
  | _ :: _, [] => false
  | a :: as, b :: bs => if a = b then charListLt as bs else Nat.blt a.toNat b.toNat

/-- Python frozenset([a, b]) of two strings, represented canonically as a
sorted duplicate-free list so that equality of representations coincides
with equality of the underlying sets. -/
def frozensetPair (a b : String) : List String :=
  if a = b then [a] else if charListLt a.data b.data then [a, b] else [b, a]

/-- Lines 125-157: extracts a primary identifier.  Returns the head of
the eligible sublist (None on IndexError) together with whether the
warning fired, i.e. whether the number of deduplicated frozensets of
id and type differs from one. -/
def get_primary_docid (raw_ids : List DocID) : Option DocID × Bool :=
  let primary_docids := raw_ids.filter eligible
  let deduped :=
    (primary_docids.map (fun d => frozensetPair (d.id.getD "") (d.type.getD ""))).dedup
  (primary_docids.head?, deduped.length != 1)

/-- Source metadata looked up per dataset (main.sources collaborator). -/
structure SourceMeta where
  id : String
deriving DecidableEq

/-- One physical record: dataset id, reference id, and a raw body of an
arbitrary type (the body shape is irrelevant to composition). -/
structure RefData (β : Type) where
  dataset : String
  ref : String
  body : β
deriving DecidableEq

/-- Per-source entry of the provenance map (main.types). -/
structure IndexedBibliographicItem (β : Type) where
  indexed_object : String
  source : SourceMeta
  bibitem : BibRecord β
  validation_errors : Option String
deriving DecidableEq

/-- Composite record (main.types.CompositeSourcedBibliographicItem):
merged base fields, provenance map, primary docid, and whether it was
built under full validation. -/
structure CompositeSourcedBibliographicItem (β : Type) where
  base : β
  sources : List (String × IndexedBibliographicItem β)
  primary_docid : Option String
  validated : Bool
deriving DecidableEq

/-- Modelled from the spec: bib_models.construct_bibitem, the
ValidationGate, is not under src/ (only its caller is).  Per the spec,
strict construction fails on a validation error; non-strict construction
captures the message and builds the record bypassing validation, and the
errors value is None exactly when the record fully validated. -/
def construct_bibitem {β : Type} (validate : β → Option String) (body : β)
    (strict : Bool) : Except String (BibRecord β × Option String) :=
  match validate body with
  | none => Except.ok ({ data := body, validated := true }, none)
  | some msg =>
    if strict then Except.error msg
    else Except.ok ({ data := body, validated := false }, some msg)

/-- Lines 66-82 of compose_bibitem: the per-record loop.  Threads the
merge accumulator, the provenance dict and the
validation_errors_encountered flag through the records in order. -/
def composeLoop {β : Type} (merge : β → β → β) (getSourceMeta : String → SourceMeta)
    (getObjMeta : String → String → String) (validate : β → Option String)
    (strict : Bool) :
    List (RefData β) → β → List (String × IndexedBibliographicItem β) → Bool →
    Except String (β × List (String × IndexedBibliographicItem β) × Bool)
  | [], base, sources, enc => Except.ok (base, sources, enc)
  | r :: rest, base, sources, enc =>
    let source := getSourceMeta r.dataset
    let obj := getObjMeta r.dataset r.ref
    let sourced_id := r.ref ++ "@" ++ source.id
    let base1 := merge base r.body
    match construct_bibitem validate r.body strict with
    | Except.error m => Except.error m
    | Except.ok (bibitem, verrs) =>
      composeLoop merge getSourceMeta getObjMeta validate strict rest base1
        (dictInsert sources sourced_id
          { indexed_object := obj, source := source, bibitem := bibitem,
            validation_errors := verrs })
        (enc || verrs.isSome)

/-- Lines 30-110: compose_bibitem.  Collaborators that live outside these
two files (the merger, the metadata lookups, the validators) are passed
in as functions.  Returns the composite together with is_valid. -/
def compose_bibitem {β : Type} (merge : β → β → β) (emptyBase : β)
    (getSourceMeta : String → SourceMeta) (getObjMeta : String → String → String)
    (validate : β → Option String)
    (validateComposite : CompositeSourcedBibliographicItem β → Option String)
    (refs : List (RefData β)) (primary_id : Option String) (strict : Bool) :
    Except String (CompositeSourcedBibliographicItem β × Bool) :=
  match composeLoop merge getSourceMeta getObjMeta validate strict refs emptyBase [] false with
  | Except.error m => Except.error m
  | Except.ok (base, sources, enc) =>
    if !strict && enc then
      Except.ok
        ({ base := base, sources := sources, primary_docid := primary_id,
           validated := false }, false)
    else
      let comp : CompositeSourcedBibliographicItem β :=
        { base := base, sources := sources, primary_docid := primary_id,
          validated := true }
      match validateComposite comp with
      | some m => Except.error m
      | none => Except.ok (comp, true)

/-- Database error class: the two caught classes plus everything else. -/
inductive DBErrClass where
  | programming
  | data
  | other
deriving DecidableEq

/-- Database-level error: its class and its stringified representation
(repr(exc), which the benign-error check inspects). -/
structure DBErr where
  cls : DBErrClass
  reprStr : String
deriving DecidableEq

/-- Character-list prefix test, used to decide substring containment. -/
def isPrefixC : List Char → List Char → Bool
  | [], _ => true
  | _ :: _, [] => false
  | a :: as, b :: bs => a == b && isPrefixC as bs

/-- Character-list substring containment. -/
def containsC (pat : List Char) : List Char → Bool
  | [] => isPrefixC pat []
  | c :: rest => isPrefixC pat (c :: rest) || containsC pat rest

/-- Python substring test: pat in s. -/
def strContains (s pat : String) : Bool :=
  containsC pat.data s.data

/-- Lines 178-202: checks repr(exc) for the three allow-listed phrase
patterns pointing at user-supplied regex or jsonpath syntax issues. -/
def is_benign_user_input_error (e : DBErr) : Bool :=
  strContains e.reprStr "invalid regular expression"
  || (strContains e.reprStr "syntax error" && strContains e.reprStr "jsonpath input")
  || (strContains e.reprStr "unexpected end of quoted string"
      && strContains e.reprStr "jsonpath input")

/-- Lines 160-175: force-evaluates the query thunk; a ProgrammingError or
DataError that is benign per the allow-list is suppressed into None, any
other raised error propagates unchanged. -/
def query_suppressing_user_input_error {γ : Type} (query : Unit → Except DBErr γ) :
    Except DBErr (Option γ) :=
  match query () with
  | Except.ok qs => Except.ok (some qs)
  | Except.error e =>
    match e.cls with
    | DBErrClass.programming =>
      if is_benign_user_input_error e then Except.ok none else Except.error e
    | DBErrClass.data =>
      if is_benign_user_input_error e then Except.ok none else Except.error e
    | DBErrClass.other => Except.error e

/-- Raw record of the end-to-end example: title, one author with one
affiliation, one ISSN, volume, page and a (list-valued, as Crossref
returns it) container-title, together with its DOI. -/
def c1Resp : Resp :=
  { doi := some "10.1234/example",
    issn := ["1234-5678"],
    title := some ["Example Title"],
    author := [{ family := some "Smith", given := some "J",
                 affiliation := some [{ name := "Acme" }] }],
    volume := some "5",
    page := some "1-10",
    containerTitle := some (CT.list ["Journal of Examples"]) }

/-- Raw record with neither container-title nor publisher (title, DOI and
URL present so that nothing else can fail first). -/
def c2Resp : Resp :=
  { doi := some "10.1234/x", title := some ["T"], url := some "https://example.com/x" }

/-- Raw record whose candidate-data assembly fails before the breakpoint:
the title key is absent, so line 178 raises KeyError. -/
def c3BadResp : Resp := { doi := some "10.1/x" }

/-- Raw record whose candidate-data assembly succeeds (string-valued
container-title, volume, page, title and URL present). -/
def c3GoodResp : Resp :=
  { doi := some "10.1/ok", title := some ["T"], url := some "u",
    volume := some "5", page := some "1-10",
    containerTitle := some (CT.str "J") }

/-- The candidate data assembled from c3GoodResp. -/
def c3GoodData : AssembledData :=
  { docid := [{ id := some "10.1/ok", type := some "DOI" }],
    language := none,
    title := [{ content := "T", type := none },
              { content := "J", type := some "container-title" }],
    link := [{ content := "u" }],
    abstract := [],
    contributor := [],
    series_info := [(CT.str "J", "vol. 5, pp. 1-10")],
    volume := "vol. 5",
    page := some "vol. 5" }

/-- Raw record with one 13-character ISBN and one 5-character ISBN. -/
def c4Resp : Resp := { doi := some "10.1/z", isbn := ["1234567890123", "12345"] }

/-- Identifier list produced from c4Resp. -/
def c4Docs : List DocID :=
  [{ id := some "10.1/z", type := some "DOI" },
   { id := some "123-4-5678-9012-3", type := some "ISBN" }]

/-- Eligible primary identifier (id A, type T). -/
def c5d1 : DocID := { id := some "A", type := some "T", primary := some true }

/-- Eligible primary identifier with a different id (B, T). -/
def c5d2 : DocID := { id := some "B", type := some "T", primary := some true }

/-- Validator rejecting the value 0 with a fixed message. -/
def c6Validate : Nat → Option String :=
  fun n => if n == 0 then some "required field missing" else none

/-- Merger that keeps the accumulator (merge details are irrelevant). -/
def c7Merge : Nat → Nat → Nat := fun b _ => b

/-- Source-metadata lookup whose id is the dataset name. -/
def c7Gsm : String → SourceMeta := fun d => { id := d }

/-- Indexed-object lookup returning the reference name. -/
def c7Gom : String → String → String := fun _ r => r

/-- Per-record validator that always fails. -/
def c7VBad : Nat → Option String := fun _ => some "missing docid"

/-- Top-level validator that always passes. -/
def c7Vcomp : CompositeSourcedBibliographicItem Nat → Option String := fun _ => none

/-- One physical record. -/
def c7Refs : List (RefData Nat) := [{ dataset := "ds", ref := "r1", body := 5 }]

/-- Composite produced from c7Refs under strict = false with c7VBad. -/
def c7CompF : CompositeSourcedBibliographicItem Nat :=
  { base := 0,
    sources := [("r1@ds",
      { indexed_object := "r1", source := { id := "ds" },
        bibitem := { data := 5, validated := false },
        validation_errors := some "missing docid" })],
    primary_docid := none, validated := false }

/-- Merger that keeps the accumulator. -/
def c8Merge : Nat → Nat → Nat := fun b _ => b

/-- Source-metadata lookup whose id is the dataset name. -/
def c8Gsm : String → SourceMeta := fun d => { id := d }

/-- Indexed-object lookup returning the reference name. -/
def c8Gom : String → String → String := fun _ r => r

/-- Per-record validator that always passes. -/
def c8VOk : Nat → Option String := fun _ => none

/-- Top-level validator that always passes. -/
def c8Vcomp : CompositeSourcedBibliographicItem Nat → Option String := fun _ => none

/-- Two physical records sharing both reference and dataset. -/
def c8RefsDup : List (RefData Nat) :=
  [{ dataset := "ds", ref := "r1", body := 5 },
   { dataset := "ds", ref := "r1", body := 7 }]

/-- One physical record. -/
def c8Refs1 : List (RefData Nat) := [{ dataset := "ds", ref := "r1", body := 5 }]

/-- Composite produced from c8Refs1 under strict = true with c8VOk. -/
def c8Comp1 : CompositeSourcedBibliographicItem Nat :=
  { base := 0,
    sources := [("r1@ds",
      { indexed_object := "r1", source := { id := "ds" },
        bibitem := { data := 5, validated := true },
        validation_errors := none })],
    primary_docid := none, validated := true }

/-- Query thunk raising a ProgrammingError with an allow-listed phrase. -/
def c9QBenign : Unit → Except DBErr (List Nat) :=
  fun _ => Except.error { cls := DBErrClass.programming,
                          reprStr := "invalid regular expression: foo" }

/-- The error raised by c9QBad: a DataError with an unrelated message. -/
def c9BadErr : DBErr :=
  { cls := DBErrClass.data, reprStr := "violates foreign key constraint" }

/-- Query thunk raising a DataError with an unrelated message. -/
def c9QBad : Unit → Except DBErr (List Nat) := fun _ => Except.error c9BadErr

/-- Query thunk that succeeds. -/
def c9QOk : Unit → Except DBErr (List Nat) := fun _ => Except.ok [1, 2]

/-- Author-like object without the affiliation key. -/
def c10NoAff : RespAuthor := { family := some "Smith", given := some "J" }

/-- Author-like object with only the affiliation key (family, name and
given all absent). -/
def c10OnlyAff : RespAuthor := { affiliation := some [{ name := "Acme" }] }

/-- Filtering the mapped ISBN identifiers for the ISBN type keeps them
all, and projecting to the id recovers the reformatted strings. -/
theorem isbn_filter_map (L : List String) :
    ((L.map (fun s => ({ id := some (isbnTmplFormat s), type := some "ISBN" } : DocID))).filter
        (fun d => d.type == some "ISBN")).map (fun d => d.id)
      = L.map (fun s => some (isbnTmplFormat s)) := by
  induction L with
  | nil => rfl
  | cons a L ih =>
    simp only [List.map_cons, List.filter_cons]
    rw [show (({ id := some (isbnTmplFormat a), type := some "ISBN" } : DocID).type
        == some "ISBN") = true from rfl]
    simp only [if_true, List.map_cons, ih]

/-- Mapped ISSN identifiers are all removed by the ISBN-type filter. -/
theorem issn_filter_out (L : List String) :
    (L.map (fun i => ({ id := some i, type := some "ISSN" } : DocID))).filter
        (fun d => d.type == some "ISBN") = [] := by
  induction L with
  | nil => rfl
  | cons a L ih =>
    simp only [List.map_cons, List.filter_cons]
    rw [show (({ id := some a, type := some "ISSN" } : DocID).type
        == some "ISBN") = false from rfl]
    simp only [Bool.false_eq_true, if_false, ih]

/-- C1: for the end-to-end example record (title Example Title, author
Smith/J with affiliation Acme, ISSN 1234-5678, volume 5, page 1-10,
container-title [Journal of Examples], plus its DOI), the identifier list
is [DOI, ISSN:1234-5678] as claimed, but the mapper does not produce the
claimed record: the list-valued container-title is used as a dict key at
line 103, so get_bibitem raises TypeError (unhashable type) instead of
returning a seriesinfo of vol. 5, pp. 1-10 under Journal of Examples. -/
theorem C1_end_to_end_mapper_crashes :
    mkDocids c1Resp = Except.ok
        [{ id := some "10.1234/example", type := some "DOI" },
         { id := some "1234-5678", type := some "ISSN" }]
    ∧ assembleData c1Resp = Except.error (PyErr.typeError "unhashable type: list")
    ∧ (get_bibitem (fun _ => none)
          { id := some "10.1234/example", type := some "DOI" } (some c1Resp) true).2
        = Except.error (PyErr.typeError "unhashable type: list") :=
  ⟨rfl, rfl, rfl⟩

/-- C2: for a raw record containing neither container-title nor publisher
the series-info block leaves the seriesinfo dict empty, but it also never
assigns the local vi, which line 211 then reads unconditionally, so
get_bibitem raises UnboundLocalError instead of returning a record with
empty seriesinfo and unset volume and page. -/
theorem C2_no_series_sources_crashes :
    mkSeriesInfo c2Resp
        = Except.ok { seriesinfo := [], vi := none, info := none, pubContrib := none }
    ∧ assembleData c2Resp = Except.error (PyErr.unboundLocal "vi")
    ∧ (get_bibitem (fun _ => none)
          { id := some "10.1234/x", type := some "DOI" } (some c2Resp) true).2
        = Except.error (PyErr.unboundLocal "vi") :=
  ⟨rfl, rfl, rfl⟩

/-- C4: in the identifier list produced by get_bibitem, the ISBN-typed
entries are exactly the 13-character raw ISBN strings reformatted through
ISBN_TMPL, every 13-character ISBN contributes its reformatted entry, and
on 13-character strings the template yields the dashed slice groups
S[0:3]-S[3]-S[4:8]-S[8:12]-S[12] (expressed over the character list);
raw ISBN strings of any other length contribute nothing. -/
theorem C4_isbn_formatting (resp : Resp) (l : List DocID)
    (h : mkDocids resp = Except.ok l) :
    ((l.filter (fun d => d.type == some "ISBN")).map (fun d => d.id)
        = (resp.isbn.filter (fun s => s.length == 13)).map
            (fun s => some (isbnTmplFormat s)))
    ∧ (∀ s ∈ resp.isbn, s.length = 13 →
        ({ id := some (isbnTmplFormat s), type := some "ISBN" } : DocID) ∈ l)
    ∧ (∀ s : String, s.length = 13 → isbnTmplFormat s
        = String.mk (s.data.take 3) ++ "-" ++ String.mk ((s.data.drop 3).take 1)
          ++ "-" ++ String.mk ((s.data.drop 4).take 4)
          ++ "-" ++ String.mk ((s.data.drop 8).take 4)
          ++ "-" ++ String.mk ((s.data.drop 12).take 1)) := by
  unfold mkDocids at h
  rcases hd : resp.doi with _ | doi <;> rw [hd] at h
  · cases h
  · injection h with h
    subst h
    refine ⟨?_, ?_, ?_⟩
    · simp only [List.filter_append, List.map_append, issn_filter_out, isbn_filter_map,
        List.filter_cons]
      rw [show (({ id := some doi, type := some "DOI" } : DocID).type == some "ISBN")
          = false from rfl]
      simp
    · intro s hs h13
      refine List.mem_append_right _ ?_
      refine List.mem_map_of_mem _ ?_
      rw [List.mem_filter]
      exact ⟨hs, by simp [h13]⟩
    · intro s h13
      obtain ⟨cs⟩ := s
      have hl : cs.length = 13 := h13
      rcases cs with _ | ⟨c0, cs⟩
      · simp at hl
      rcases cs with _ | ⟨c1, cs⟩
      · simp at hl
      rcases cs with _ | ⟨c2, cs⟩
      · simp at hl
      rcases cs with _ | ⟨c3, cs⟩
      · simp at hl
      rcases cs with _ | ⟨c4, cs⟩
      · simp at hl
      rcases cs with _ | ⟨c5, cs⟩
      · simp at hl
      rcases cs with _ | ⟨c6, cs⟩
      · simp at hl
      rcases cs with _ | ⟨c7, cs⟩
      · simp at hl
      rcases cs with _ | ⟨c8, cs⟩
      · simp at hl
      rcases cs with _ | ⟨c9, cs⟩
      · simp at hl
      rcases cs with _ | ⟨c10, cs⟩
      · simp at hl
      rcases cs with _ | ⟨c11, cs⟩
      · simp at hl
      rcases cs with _ | ⟨c12, cs⟩
      · simp at hl
      rfl

/-- C4 witness: for the record with ISBN entries 1234567890123 and 12345,
the ISBN-typed output identifiers are exactly [123-4-5678-9012-3], and
the template applied to 1234567890123 equals its dashed slice groups. -/
theorem C4_isbn_formatting_witness :
    ((c4Docs.filter (fun d => d.type == some "ISBN")).map (fun d => d.id)
        = [some "123-4-5678-9012-3"])
    ∧ isbnTmplFormat "1234567890123"
        = String.mk ("1234567890123".data.take 3) ++ "-"
          ++ String.mk (("1234567890123".data.drop 3).take 1)
          ++ "-" ++ String.mk (("1234567890123".data.drop 4).take 4)
          ++ "-" ++ String.mk (("1234567890123".data.drop 8).take 4)
          ++ "-" ++ String.mk (("1234567890123".data.drop 12).take 1) := by
  have h := C4_isbn_formatting c4Resp c4Docs rfl
  exact ⟨h.1.trans rfl, h.2.2 "1234567890123" rfl⟩

/-- C3 (amended): on a matching DOI identifier and a returned record,
execution passes through the line-214 breakpoint, before the validation
step, precisely when assembling the candidate data succeeds; here, given
a successful assembly, the breakpoint is the first post-assembly event
and validation occurs after it. -/
theorem C3_breakpoint_after_assembly (validate : AssembledData → Option String)
    (docid : DocID) (respOpt : Option Resp) (strict : Bool) (resp : Resp)
    (dta : AssembledData) (hresp : respOpt = some resp)
    (htype : docid.type = some "DOI") (hok : assembleData resp = Except.ok dta) :
    (get_bibitem validate docid respOpt strict).1.head? = some Ev.breakpoint
    ∧ Ev.validateEv ∈ (get_bibitem validate docid respOpt strict).1.tail := by
  subst hresp
  rcases hc : constructStep validate strict dta with m | ⟨bib, errs⟩ <;>
    simp [get_bibitem, htype, hok, hc]

/-- C3 counterexample: a record whose assembly raises (missing title key)
is an input with matching DOI type and a returned provider record on
which execution never reaches the breakpoint, refuting the claim that no
such input avoids it. -/
theorem C3_breakpoint_skipped_on_assembly_error :
    Ev.breakpoint ∉ (get_bibitem (fun _ => none)
        { id := some "10.1/x", type := some "DOI" } (some c3BadResp) true).1 := by
  have h : (get_bibitem (fun _ => none)
      { id := some "10.1/x", type := some "DOI" } (some c3BadResp) true).1 = [] := rfl
  rw [h]
  exact List.not_mem_nil _

/-- C3 witness: on a record whose assembly succeeds, the breakpoint is
hit first and validation follows. -/
theorem C3_breakpoint_after_assembly_witness :
    (get_bibitem (fun _ => none) { id := some "10.1/ok", type := some "DOI" }
        (some c3GoodResp) true).1.head? = some Ev.breakpoint
    ∧ Ev.validateEv ∈ (get_bibitem (fun _ => none)
        { id := some "10.1/ok", type := some "DOI" } (some c3GoodResp) true).1.tail :=
  C3_breakpoint_after_assembly (fun _ => none)
    { id := some "10.1/ok", type := some "DOI" } (some c3GoodResp) true
    c3GoodResp c3GoodData rfl rfl rfl

/-- C5 (amended): get_primary_docid returns none on an empty eligible
set; the single eligible candidate when there is exactly one (without
warning); with two eligible entries whose frozensets of id and type
coincide (in particular, identical id and type), the first entry without
warning; and with two eligible entries whose frozensets differ, the first
eligible entry in original order with the warning recorded. -/
theorem C5_primary_docid_resolution (raw_ids : List DocID) :
    (raw_ids.filter eligible = [] → (get_primary_docid raw_ids).1 = none)
    ∧ (∀ d, raw_ids.filter eligible = [d] →
        get_primary_docid raw_ids = (some d, false))
    ∧ (∀ d₁ d₂, raw_ids.filter eligible = [d₁, d₂] →
        frozensetPair (d₁.id.getD "") (d₁.type.getD "")
          = frozensetPair (d₂.id.getD "") (d₂.type.getD "") →
        get_primary_docid raw_ids = (some d₁, false))
    ∧ (∀ d₁ d₂, raw_ids.filter eligible = [d₁, d₂] →
        frozensetPair (d₁.id.getD "") (d₁.type.getD "")
          ≠ frozensetPair (d₂.id.getD "") (d₂.type.getD "") →
        get_primary_docid raw_ids = (some d₁, true)) := by
  refine ⟨?_, ?_, ?_, ?_⟩
  · intro h
    unfold get_primary_docid
    rw [h]
    rfl
  · intro d h
    unfold get_primary_docid
    rw [h]
    rfl
  · intro d₁ d₂ h heq
    unfold get_primary_docid
    rw [h]
    simp only [List.map_cons, List.map_nil, heq]
    rw [List.dedup_cons_of_mem (by simp [List.dedup_cons_of_not_mem, List.not_mem_nil])]
    rfl
  · intro d₁ d₂ h hne
    unfold get_primary_docid
    rw [h]
    simp only [List.map_cons, List.map_nil]
    rw [List.dedup_cons_of_not_mem (by simpa using hne)]
    rfl

/-- C5 counterexample: two eligible entries with different id and type
values, obtained from each other by swapping id and type, have equal
frozensets, so the code records no warning although the claim says a
warning is recorded for two eligible entries with different id/type. -/
theorem C5_swapped_id_type_no_warning :
    get_primary_docid
        [{ id := some "X", type := some "Y", primary := some true },
         { id := some "Y", type := some "X", primary := some true }]
      = (some { id := some "X", type := some "Y", primary := some true }, false) := rfl

/-- C5 witness: the empty, singleton, duplicate and distinct cases at
concrete identifier lists. -/
theorem C5_primary_docid_resolution_witness :
    (get_primary_docid [{ id := some "A", type := some "T" }]).1 = none
    ∧ get_primary_docid [c5d1] = (some c5d1, false)
    ∧ get_primary_docid [c5d1, c5d1] = (some c5d1, false)
    ∧ get_primary_docid [c5d1, c5d2] = (some c5d1, true) :=
  ⟨(C5_primary_docid_resolution [{ id := some "A", type := some "T" }]).1 rfl,
   (C5_primary_docid_resolution [c5d1]).2.1 c5d1 rfl,
   (C5_primary_docid_resolution [c5d1, c5d1]).2.2.1 c5d1 c5d1 rfl rfl,
   (C5_primary_docid_resolution [c5d1, c5d2]).2.2.2 c5d1 c5d2 rfl (by decide)⟩

/-- C6: in the construction step of get_bibitem, a validation failure
under strict propagates as an error with no record produced; under
non-strict it is caught, its message is captured into the returned error
list, and a best-effort record carrying the same data is built bypassing
validation; a successful validation yields a validated record with no
errors; and whenever a record is returned, its error list is empty if
and only if the record fully validated (and its data is preserved). -/
theorem C6_construction_step {α : Type} (validate : α → Option String)
    (strict : Bool) (d : α) :
    (∀ msg, strict = true → validate d = some msg →
        constructStep validate strict d = Except.error msg)
    ∧ (∀ msg, strict = false → validate d = some msg →
        constructStep validate strict d
          = Except.ok ({ data := d, validated := false }, [msg]))
    ∧ (validate d = none →
        constructStep validate strict d
          = Except.ok ({ data := d, validated := true }, []))
    ∧ (∀ b errs, constructStep validate strict d = Except.ok (b, errs) →
        ((errs = [] ↔ b.validated = true) ∧ b.data = d)) := by
  refine ⟨?_, ?_, ?_, ?_⟩
  · intro msg hs hv
    subst hs
    unfold constructStep
    rw [hv]
    rfl
  · intro msg hs hv
    subst hs
    unfold constructStep
    rw [hv]
    rfl
  · intro hv
    unfold constructStep
    rw [hv]
    rcases strict with _ | _ <;> rfl
  · intro b errs h
    unfold constructStep at h
    rcases hv : validate d with _ | msg <;> rw [hv] at h <;>
      rcases strict with _ | _ <;> simp at h
    all_goals
      obtain ⟨hb, he⟩ := h
      subst hb
      subst he
      simp

/-- C6 witness: the strict failure, non-strict failure, success, and
errors-iff-validated facts at a concrete validator and inputs. -/
theorem C6_construction_step_witness :
    constructStep c6Validate true 0 = Except.error "required field missing"
    ∧ constructStep c6Validate false 0
        = Except.ok ({ data := 0, validated := false }, ["required field missing"])
    ∧ constructStep c6Validate true 1 = Except.ok ({ data := 1, validated := true }, [])
    ∧ ((["required field missing"] = ([] : List String)) ↔
        (({ data := 0, validated := false } : BibRecord Nat).validated = true)) :=
  ⟨(C6_construction_step c6Validate true 0).1 _ rfl rfl,
   (C6_construction_step c6Validate false 0).2.1 _ rfl rfl,
   (C6_construction_step c6Validate true 1).2.2.1 rfl,
   ((C6_construction_step c6Validate false 0).2.2.2
      { data := 0, validated := false } ["required field missing"] rfl).1⟩

/-- C10: to_contributor fails with KeyError when the author-like object
lacks the affiliation key, instead of defaulting to an empty affiliation
list; when the affiliation key is present, the call succeeds for every
combination of the optional family, name and given fields. -/
theorem C10_affiliation_required (role : String) (a : RespAuthor) :
    (a.affiliation = none →
        to_contributor role a = Except.error (PyErr.keyError "affiliation"))
    ∧ (a.affiliation.isSome = true →
        exceptIsOk (to_contributor role a) = true) := by
  constructor
  · intro h
    unfold to_contributor
    rw [h]
  · intro h
    rcases ha : a.affiliation with _ | affs
    · rw [ha] at h
      cases h
    · unfold to_contributor
      rw [ha]
      rfl

/-- C10 witness: an author object with family and given but no
affiliation key fails with KeyError, while an author object carrying only
an affiliation (family, name and given all absent) succeeds. -/
theorem C10_affiliation_required_witness :
    to_contributor "author" c10NoAff = Except.error (PyErr.keyError "affiliation")
    ∧ exceptIsOk (to_contributor "author" c10OnlyAff) = true :=
  ⟨(C10_affiliation_required "author" c10NoAff).1 rfl,
   (C10_affiliation_required "author" c10OnlyAff).2 rfl⟩

/-- Facts about a successful construct_bibitem call: the returned errors
value is Some exactly when validation failed, and a success under strict
means validation passed. -/
theorem construct_bibitem_ok {β : Type} (validate : β → Option String) (body : β)
    (strict : Bool) (bib : BibRecord β) (verrs : Option String)
    (h : construct_bibitem validate body strict = Except.ok (bib, verrs)) :
    verrs.isSome = (validate body).isSome
    ∧ (strict = true → validate body = none) := by
  unfold construct_bibitem at h
  rcases hv : validate body with _ | msg <;> rw [hv] at h
  · injection h with h
    rw [Prod.mk.injEq] at h
    obtain ⟨-, h2⟩ := h
    subst h2
    simp
  · rcases strict with _ | _
    · simp only [Bool.false_eq_true, if_false] at h
      injection h with h
      rw [Prod.mk.injEq] at h
      obtain ⟨-, h2⟩ := h
      subst h2
      simp
    · simp at h

/-- The validation_errors_encountered flag after the compose loop equals
the initial flag or-ed with whether any record failed validation, and a
successful loop under strict means every record validated. -/
theorem composeLoop_ok_flag {β : Type} (merge : β → β → β) (gsm : String → SourceMeta)
    (gom : String → String → String) (validate : β → Option String) (strict : Bool) :
    ∀ (refs : List (RefData β)) (base : β)
      (sources : List (String × IndexedBibliographicItem β)) (enc : Bool)
      (b : β) (s : List (String × IndexedBibliographicItem β)) (e : Bool),
      composeLoop merge gsm gom validate strict refs base sources enc
          = Except.ok (b, s, e) →
        e = (enc || refs.any (fun r => (validate r.body).isSome))
        ∧ (strict = true → refs.any (fun r => (validate r.body).isSome) = false) := by
  intro refs
  induction refs with
  | nil =>
    intro base sources enc b s e h
    injection h with h
    rw [Prod.mk.injEq] at h
    obtain ⟨-, h2⟩ := h
    rw [Prod.mk.injEq] at h2
    obtain ⟨-, he⟩ := h2
    subst he
    simp
  | cons r rest ih =>
    intro base sources enc b s e h
    unfold composeLoop at h
    rcases hv : construct_bibitem validate r.body strict with m | ⟨bib, verrs⟩ <;>
      rw [hv] at h
    · cases h
    · obtain ⟨hsome, hstrict⟩ := construct_bibitem_ok validate r.body strict bib verrs hv
      obtain ⟨he, hrest⟩ := ih _ _ _ _ _ _ h
      constructor
      · rw [he, hsome, List.any_cons, Bool.or_assoc]
      · intro hs
        rw [List.any_cons, hrest hs, hstrict hs]
        rfl

/-- C7 (amended): whenever compose_bibitem returns at all, is_valid is
false exactly when strict is false and at least one per-record validation
failed, and in that case (and only then) the composite was constructed
bypassing top-level validation; under strict a per-record failure makes
the call propagate the error instead of returning. -/
theorem C7_is_valid_flag {β : Type} (merge : β → β → β) (emptyBase : β)
    (gsm : String → SourceMeta) (gom : String → String → String)
    (validate : β → Option String)
    (vcomp : CompositeSourcedBibliographicItem β → Option String)
    (refs : List (RefData β)) (pid : Option String) (strict : Bool)
    (c : CompositeSourcedBibliographicItem β) (v : Bool)
    (h : compose_bibitem merge emptyBase gsm gom validate vcomp refs pid strict
          = Except.ok (c, v)) :
    (v = false ↔ (strict = false ∧ refs.any (fun r => (validate r.body).isSome) = true))
    ∧ (v = false → c.validated = false)
    ∧ (v = true → c.validated = true) := by
  unfold compose_bibitem at h
  rcases hl : composeLoop merge gsm gom validate strict refs emptyBase [] false
      with m | ⟨base, sources, enc⟩ <;> rw [hl] at h
  · cases h
  · obtain ⟨he, hstrict⟩ :=
      composeLoop_ok_flag merge gsm gom validate strict refs emptyBase [] false
        base sources enc hl
    rw [Bool.false_or] at he
    subst he
    dsimp only at h
    split at h
    · rename_i hb
      injection h with h
      rw [Prod.mk.injEq] at h
      obtain ⟨hc, hvv⟩ := h
      subst hc
      subst hvv
      rw [Bool.and_eq_true] at hb
      refine ⟨⟨fun _ => ?_, fun _ => rfl⟩, fun _ => rfl, fun htrue => Bool.noConfusion htrue⟩
      refine ⟨?_, hb.2⟩
      rcases strict with _ | _
      · rfl
      · cases hb.1
    · rename_i hb
      split at h
      · cases h
      · injection h with h
        rw [Prod.mk.injEq] at h
        obtain ⟨hc, hvv⟩ := h
        subst hc
        subst hvv
        refine ⟨⟨fun hft => Bool.noConfusion hft, fun hcon => ?_⟩,
          fun hft => Bool.noConfusion hft, fun _ => rfl⟩
        exact (hb (by rw [hcon.1, hcon.2]; rfl)).elim

/-- C7 counterexample: on one record whose validation fails, with strict
set, compose_bibitem propagates the validation error instead of returning
a composite with is_valid = true. -/
theorem C7_strict_failure_raises :
    compose_bibitem c7Merge 0 c7Gsm c7Gom c7VBad c7Vcomp c7Refs none true
      = Except.error "missing docid" := rfl

/-- C7 witness: with strict unset and a failing record, the returned flag
is false, matching the characterization, and the composite bypassed
top-level validation. -/
theorem C7_is_valid_flag_witness :
    ((false = false) ↔
      ((false : Bool) = false ∧ c7Refs.any (fun r => (c7VBad r.body).isSome) = true))
    ∧ (false = false → c7CompF.validated = false)
    ∧ ((false : Bool) = true → c7CompF.validated = true) :=
  C7_is_valid_flag c7Merge 0 c7Gsm c7Gom c7VBad c7Vcomp c7Refs none false c7CompF false rfl

/-- Replacing the value stored under a key leaves the key list of an
association list unchanged. -/
theorem keys_replace {κ α : Type} [DecidableEq κ] (d : List (κ × α)) (k : κ) (v : α) :
    (d.map (fun p => if p.1 = k then (k, v) else p)).map Prod.fst = d.map Prod.fst := by
  induction d with
  | nil => rfl
  | cons p t ih =>
    simp only [List.map_cons, ih]
    by_cases hp : p.1 = k
    · simp [hp]
    · simp [hp]

/-- The key list after a Python dict assignment: unchanged if the key was
present, extended by the key at the end otherwise. -/
theorem dictInsert_keys {κ α : Type} [DecidableEq κ] (d : List (κ × α)) (k : κ) (v : α) :
    (dictInsert d k v).map Prod.fst
      = if k ∈ d.map Prod.fst then d.map Prod.fst else d.map Prod.fst ++ [k] := by
  unfold dictInsert
  by_cases h : k ∈ d.map Prod.fst
  · rw [if_pos h, if_pos h, keys_replace]
  · rw [if_neg h, if_neg h, List.map_append]
    rfl

/-- The provenance keys after the compose loop are obtained by folding
the per-record keys over the initial key list with Python dict insertion
semantics. -/
theorem composeLoop_keys {β : Type} (merge : β → β → β) (gsm : String → SourceMeta)
    (gom : String → String → String) (validate : β → Option String) (strict : Bool) :
    ∀ (refs : List (RefData β)) (base : β)
      (sources : List (String × IndexedBibliographicItem β)) (enc : Bool)
      (b : β) (s : List (String × IndexedBibliographicItem β)) (e : Bool),
      composeLoop merge gsm gom validate strict refs base sources enc
          = Except.ok (b, s, e) →
        s.map Prod.fst
          = (refs.map (fun r => r.ref ++ "@" ++ (gsm r.dataset).id)).foldl
              (fun ks k => if k ∈ ks then ks else ks ++ [k]) (sources.map Prod.fst) := by
  intro refs
  induction refs with
  | nil =>
    intro base sources enc b s e h
    injection h with h
    rw [Prod.mk.injEq] at h
    obtain ⟨-, h2⟩ := h
    rw [Prod.mk.injEq] at h2
    obtain ⟨hs, -⟩ := h2
    subst hs
    rfl
  | cons r rest ih =>
    intro base sources enc b s e h
    unfold composeLoop at h
    rcases hv : construct_bibitem validate r.body strict with m | ⟨bib, verrs⟩ <;>
      rw [hv] at h
    · cases h
    · rw [ih _ _ _ _ _ _ h, List.map_cons, List.foldl_cons, dictInsert_keys]

/-- C8 (amended): whenever compose_bibitem returns a composite, the key
list of its sources map is the first-occurrence deduplication of the
input records' keys, each formatted exactly as reference@sourceId in
input order: there is exactly one entry per distinct formatted key, so
records sharing reference and source id collapse into a single entry
rather than one entry per input record. -/
theorem C8_sources_keys {β : Type} (merge : β → β → β) (emptyBase : β)
    (gsm : String → SourceMeta) (gom : String → String → String)
    (validate : β → Option String)
    (vcomp : CompositeSourcedBibliographicItem β → Option String)
    (refs : List (RefData β)) (pid : Option String) (strict : Bool)
    (c : CompositeSourcedBibliographicItem β) (v : Bool)
    (h : compose_bibitem merge emptyBase gsm gom validate vcomp refs pid strict
          = Except.ok (c, v)) :
    c.sources.map Prod.fst
      = (refs.map (fun r => r.ref ++ "@" ++ (gsm r.dataset).id)).foldl
          (fun ks k => if k ∈ ks then ks else ks ++ [k]) [] := by
  unfold compose_bibitem at h
  rcases hl : composeLoop merge gsm gom validate strict refs emptyBase [] false
      with m | ⟨base, sources, enc⟩ <;> rw [hl] at h
  · cases h
  · have hk := composeLoop_keys merge gsm gom validate strict refs emptyBase [] false
      base sources enc hl
    dsimp only at h
    split at h
    · injection h with h
      rw [Prod.mk.injEq] at h
      obtain ⟨hc, -⟩ := h
      subst hc
      exact hk
    · split at h
      · cases h
      · injection h with h
        rw [Prod.mk.injEq] at h
        obtain ⟨hc, -⟩ := h
        subst hc
        exact hk

/-- C8 counterexample: two input records sharing reference and dataset
produce a sources map with a single entry, so the key set is not in
one-to-one correspondence with the input records. -/
theorem C8_duplicate_records_collapse :
    (compose_bibitem c8Merge 0 c8Gsm c8Gom c8VOk c8Vcomp c8RefsDup none true).map
        (fun cv => cv.1.sources.length) = Except.ok 1
    ∧ c8RefsDup.length = 2 :=
  ⟨rfl, rfl⟩

/-- C8 witness: for a single input record the sources key list is the
fold of its reference@sourceId key. -/
theorem C8_sources_keys_witness :
    c8Comp1.sources.map Prod.fst
      = (c8Refs1.map (fun r => r.ref ++ "@" ++ (c8Gsm r.dataset).id)).foldl
          (fun ks k => if k ∈ ks then ks else ks ++ [k]) [] :=
  C8_sources_keys c8Merge 0 c8Gsm c8Gom c8VOk c8Vcomp c8Refs1 none true c8Comp1 true rfl

/-- C9: query_suppressing_user_input_error suppresses a ProgrammingError
or DataError whose stringified representation contains the phrase about
an invalid regular expression, or one of the two jsonpath phrase pairs,
returning none; it re-raises unchanged any raised error containing none
of the allow-listed phrases; and it returns the evaluated result when no
error occurs. -/
theorem C9_query_suppression {γ : Type} (query : Unit → Except DBErr γ) :
    (∀ e, query () = Except.error e →
      (e.cls = DBErrClass.programming ∨ e.cls = DBErrClass.data) →
      strContains e.reprStr "invalid regular expression" = true →
      query_suppressing_user_input_error query = Except.ok none)
    ∧ (∀ e, query () = Except.error e →
      (e.cls = DBErrClass.programming ∨ e.cls = DBErrClass.data) →
      ((strContains e.reprStr "syntax error"
          && strContains e.reprStr "jsonpath input") = true
        ∨ (strContains e.reprStr "unexpected end of quoted string"
          && strContains e.reprStr "jsonpath input") = true) →
      query_suppressing_user_input_error query = Except.ok none)
    ∧ (∀ e, query () = Except.error e →
      strContains e.reprStr "invalid regular expression" = false →
      (strContains e.reprStr "syntax error"
        && strContains e.reprStr "jsonpath input") = false →
      (strContains e.reprStr "unexpected end of quoted string"
        && strContains e.reprStr "jsonpath input") = false →
      query_suppressing_user_input_error query = Except.error e)
    ∧ (∀ qs, query () = Except.ok qs →
      query_suppressing_user_input_error query = Except.ok (some qs)) := by
  refine ⟨?_, ?_, ?_, ?_⟩
  · intro e hq hcls hc
    have hben : is_benign_user_input_error e = true := by
      unfold is_benign_user_input_error
      rw [hc]
      rfl
    unfold query_suppressing_user_input_error
    rw [hq]
    dsimp only
    rcases hcls with hcls | hcls <;> rw [hcls] <;> dsimp only <;> rw [hben] <;> rfl
  · intro e hq hcls hc
    have hben : is_benign_user_input_error e = true := by
      unfold is_benign_user_input_error
      rcases hc with hc | hc <;> rw [hc] <;> simp
    unfold query_suppressing_user_input_error
    rw [hq]
    dsimp only
    rcases hcls with hcls | hcls <;> rw [hcls] <;> dsimp only <;> rw [hben] <;> rfl
  · intro e hq hc1 hc2 hc3
    have hben : is_benign_user_input_error e = false := by
      unfold is_benign_user_input_error
      rw [hc1, hc2, hc3]
      rfl
    unfold query_suppressing_user_input_error
    rw [hq]
    dsimp only
    rcases hcls : e.cls with _ | _ | _ <;> dsimp only <;>
      first
        | rfl
        | (rw [hben]; rfl)
  · intro qs hq
    unfold query_suppressing_user_input_error
    rw [hq]

/-- C9 witness: a benign ProgrammingError is suppressed to none, a
DataError about a foreign-key constraint is re-raised unchanged, and a
successful query returns its evaluated result. -/
theorem C9_query_suppression_witness :
    query_suppressing_user_input_error c9QBenign = Except.ok none
    ∧ query_suppressing_user_input_error c9QBad = Except.error c9BadErr
    ∧ query_suppressing_user_input_error c9QOk = Except.ok (some [1, 2]) :=
  ⟨(C9_query_suppression c9QBenign).1 _ rfl (Or.inl rfl) rfl,
   (C9_query_suppression c9QBad).2.2.1 c9BadErr rfl rfl rfl rfl,
   (C9_query_suppression c9QOk).2.2.2 [1, 2] rfl⟩

end BibXml
